import Mathlib

/-!
Shallow embedding of the rusty-hook PgQueue engine
(src/hook-common/src/pgqueue.rs and src/hook-common/src/retry.rs).

Modelling conventions:
* `std::time::Duration` values and timestamps are nanosecond counts as `Nat`
  (`Duration` multiplication in Rust is checked and aborts on overflow, so
  within the defined domain the arithmetic is exact). `u32` exponentiation
  (`u32::pow`) wraps on overflow in release builds and is modelled with an
  explicit `% 2 ^ 32`.
* SQL effects are modelled on an explicit table state `DB J M`, a list of rows.
* External failures (connection acquisition, query execution, COMMIT) are
  injected as explicit `Option SqlxError` parameters: `none` means the
  operation succeeds, `some e` means the driver reported error `e`.
* A fatal assertion in the Rust code is modelled as the `none` value of an
  outer `Option` on the result.
-/

namespace RustyHook

/-- Abstract stand-in for `sqlx::Error`: the only constructor the code
inspects is `RowNotFound`; every other driver error is opaque. -/
inductive SqlxError where
  | RowNotFound : SqlxError
  | Other : String → SqlxError
deriving DecidableEq, Repr

/-- Embedding of `PgQueueError` from pgqueue.rs. -/
inductive PgQueueError where
  | PoolCreationError (error : SqlxError)
  | ConnectionError (error : SqlxError)
  | QueryError (command : String) (error : SqlxError)
  | ParseJobStatusError (s : String)
  | ParseHttpMethodError (s : String)
deriving DecidableEq, Repr

/-- Embedding of `PgJobError<T>` from pgqueue.rs. -/
inductive PgJobError (T : Type) where
  | RetryInvalidError (job : T) (error : String)
  | ConnectionError (error : SqlxError)
  | QueryError (command : String) (error : SqlxError)
  | TransactionError (command : String) (error : SqlxError)
  | TransactionAlreadyClosedError
deriving DecidableEq

/-- Embedding of the `JobStatus` enumeration: all six declared variants. -/
inductive JobStatus where
  | Available
  | Cancelled
  | Completed
  | Discarded
  | Failed
  | Running
deriving DecidableEq, Repr

/-- Embedding of `impl FromStr for JobStatus`: only four of the six variants
have a parseable spelling; anything else is a `ParseJobStatusError` carrying
the offending string. -/
def JobStatus.from_str (s : String) : Except PgQueueError JobStatus :=
  if s = "available" then .ok .Available
  else if s = "completed" then .ok .Completed
  else if s = "failed" then .ok .Failed
  else if s = "running" then .ok .Running
  else .error (.ParseJobStatusError s)

/-- Embedding of `Job<J, M>`: one row of the `job_queue` table, as read by the
dequeue queries. `errors` is carried as well since fail/retry append to it. -/
structure JobRow (J M : Type) where
  id : Nat
  attempt : Int
  attempted_at : Nat
  attempted_by : List String
  created_at : Nat
  last_attempt_finished_at : Option Nat
  max_attempts : Int
  metadata : M
  parameters : J
  queue : String
  scheduled_at : Nat
  status : JobStatus
  target : String
  errors : List String
deriving DecidableEq, Repr

/-- Embedding of `Job::is_gte_max_attempts`: `self.attempt >= self.max_attempts`. -/
def JobRow.is_gte_max_attempts (j : JobRow J M) : Bool :=
  decide (j.max_attempts ≤ j.attempt)

/-- Embedding of `RetryableJob` from pgqueue.rs. -/
structure RetryableJob where
  id : Nat
  attempt : Int
  queue : String
  retry_queue : Option String
deriving DecidableEq, Repr

/-- Embedding of `Job::retryable`. -/
def JobRow.retryable (j : JobRow J M) : RetryableJob :=
  { id := j.id, attempt := j.attempt, queue := j.queue, retry_queue := none }

/-- Embedding of `RetryableJob::queue` (renamed: `queue` is a field here). -/
def RetryableJob.set_queue (r : RetryableJob) (q : String) : RetryableJob :=
  { r with retry_queue := some q }

/-- Embedding of `RetryableJob::retry_queue` (renamed: `retry_queue` is a
field here): `self.retry_queue.as_ref().unwrap_or(&self.queue)`. -/
def RetryableJob.retryQueue (r : RetryableJob) : String :=
  r.retry_queue.getD r.queue

/-- Embedding of `CompletedJob`. -/
structure CompletedJob where
  id : Nat
  queue : String
deriving DecidableEq, Repr

/-- Embedding of `RetriedJob`. -/
structure RetriedJob where
  id : Nat
  queue : String
  retry_queue : Option String
deriving DecidableEq, Repr

/-- Embedding of `FailedJob` (the JSON-serialized error is kept abstract as a
string). -/
structure FailedJob where
  id : Nat
  error : String
  queue : String
deriving DecidableEq, Repr

/-- Embedding of `NewJob<J, M>`. -/
structure NewJob (J M : Type) where
  max_attempts : Int
  metadata : M
  parameters : J
  target : String
deriving DecidableEq, Repr

/-- The `job_queue` table contents: the explicit state every query acts on. -/
abbrev DB (J M : Type) := List (JobRow J M)

/-- Embedding of `RetryPolicy` from retry.rs (durations as `Nat`). -/
structure RetryPolicy where
  backoff_coefficient : Nat
  initial_interval : Nat
  maximum_interval : Option Nat
  queue : Option String
deriving DecidableEq, Repr

/-- Embedding of `RetryPolicy::time_until_next_retry`: the candidate interval
is `initial_interval * backoff_coefficient.pow(attempt)` — where
`backoff_coefficient: u32` and `u32::pow` wraps modulo `2 ^ 32` on overflow
in release builds, hence the explicit reduction — then combined with the
caller-preferred interval and the configured maximum by the four-way match
of retry.rs lines 29-38. -/
def RetryPolicy.time_until_next_retry (p : RetryPolicy) (attempt : Nat)
    (preferred_retry_interval : Option Nat) : Nat :=
  let candidate_interval :=
    p.initial_interval * (p.backoff_coefficient ^ attempt % 2 ^ 32)
  match preferred_retry_interval, p.maximum_interval with
  | some duration, some max_interval =>
      min (max (min candidate_interval max_interval) duration) max_interval
  | some duration, none => max candidate_interval duration
  | none, some max_interval => min candidate_interval max_interval
  | none, none => candidate_interval

/-- Embedding of `RetryPolicy::retry_queue`. -/
def RetryPolicy.retry_queue (p : RetryPolicy) (current_queue : String) : String :=
  match p.queue with
  | some new_queue => new_queue
  | none => current_queue

/-- The spec's four-case combination table for `time_until_next_retry`,
transcribed from the spec's own words (for comparison against the code's
definition above). -/
def specRetryTable (interval : Nat) (preferred maximum : Option Nat) : Nat :=
  match preferred, maximum with
  | some p, some m => min (max (min interval m) p) m
  | some p, none => max interval p
  | none, some m => min interval m
  | none, none => interval

/-! The SQL statements of pgqueue.rs, as functions on the table state. -/

/-- Effect of `Job::complete`'s UPDATE: match on `(queue, id)`, set
`last_attempt_finished_at = NOW()` and `status = 'completed'`. -/
def completeUpdate (queue : String) (id : Nat) (now : Nat) (db : DB J M) : DB J M :=
  db.map fun r =>
    if r.queue = queue ∧ r.id = id then
      { r with last_attempt_finished_at := some now, status := .Completed }
    else r

/-- Effect of `Job::fail`'s UPDATE: match on `(queue, id)`, set
`last_attempt_finished_at = NOW()`, `status = 'failed'`, append the error. -/
def failUpdate (queue : String) (id : Nat) (e : String) (now : Nat) (db : DB J M) : DB J M :=
  db.map fun r =>
    if r.queue = queue ∧ r.id = id then
      { r with last_attempt_finished_at := some now, status := .Failed,
               errors := r.errors ++ [e] }
    else r

/-- Effect of `RetryableJob::retry`'s UPDATE: match on `(queue, id)`, set
`last_attempt_finished_at = NOW()`, `status = 'available'`,
`scheduled_at = NOW() + interval`, append the error, and move the row to
`retry_queue()` (the original queue when none was set). -/
def retrySqlUpdate (rj : RetryableJob) (e : String) (interval now : Nat)
    (db : DB J M) : DB J M :=
  db.map fun r =>
    if r.queue = rj.queue ∧ r.id = rj.id then
      { r with last_attempt_finished_at := some now, status := .Available,
               scheduled_at := now + interval, errors := r.errors ++ [e],
               queue := rj.retryQueue }
    else r

/-- The dequeue predicate of the CTE: `status = 'available' AND
scheduled_at <= NOW() AND queue = $1`. -/
def availableFilter (name : String) (now : Nat) (r : JobRow J M) : Bool :=
  decide (r.status = JobStatus.Available) && decide (r.scheduled_at ≤ now)
    && decide (r.queue = name)

/-- The `ORDER BY attempt, scheduled_at` comparison. -/
def jobOrder (a b : JobRow J M) : Bool :=
  decide (a.attempt < b.attempt)
    || (decide (a.attempt = b.attempt) && decide (a.scheduled_at ≤ b.scheduled_at))

/-- Insertion step of the ORDER BY model. -/
def insertJob (a : JobRow J M) : List (JobRow J M) → List (JobRow J M)
  | [] => [a]
  | b :: bs => if jobOrder a b then a :: b :: bs else b :: insertJob a bs

/-- Model of `ORDER BY attempt, scheduled_at` (a stable insertion sort; ties
beyond the two key columns are unspecified by the code as well). -/
def sortJobs : List (JobRow J M) → List (JobRow J M)
  | [] => []
  | a :: rest => insertJob a (sortJobs rest)

/-- The per-row effect of the bulk dequeue UPDATE: `attempted_at = NOW()`,
`status = 'running'`, `attempt = attempt + 1`,
`attempted_by = array_append(attempted_by, $3)`. -/
def dequeueUpdateRow (now : Nat) (w : String) (r : JobRow J M) : JobRow J M :=
  { r with attempted_at := now, status := .Running, attempt := r.attempt + 1,
           attempted_by := r.attempted_by ++ [w] }

/-- The full dequeue CTE of pgqueue.rs: pick up to `limit` available rows of
the queue ordered by `(attempt, scheduled_at)`, update them to running, and
return (RETURNING rows, new table state). -/
def dequeueQuery (db : DB J M) (name w : String) (limit : Nat) (now : Nat) :
    List (JobRow J M) × DB J M :=
  let picked := ((sortJobs (db.filter (availableFilter name now))).take limit).map
    (fun r => r.id)
  let returned := (db.filter (fun r => decide (r.id ∈ picked))).map
    (dequeueUpdateRow now w)
  let db2 := db.map fun r => if r.id ∈ picked then dequeueUpdateRow now w r else r
  (returned, db2)

/-- External failure injections for one queue operation: `acquireErr` models
the result of `pool.acquire()` / `pool.begin()`, `queryErr` the result the
driver reports for the SQL statement (`none` = the statement executed). -/
structure DbEnv where
  acquireErr : Option SqlxError
  queryErr : Option SqlxError
deriving DecidableEq, Repr

/-- The all-success environment. -/
def okEnv : DbEnv := { acquireErr := none, queryErr := none }

/-- Embedding of `PgQueue` (the pool is modelled through `DbEnv`). -/
structure PgQueue where
  name : String
deriving DecidableEq, Repr

/-- Embedding of `PgJob<J, M>`: a flag-mode lease handle. -/
structure PgJob (J M : Type) where
  job : JobRow J M
deriving DecidableEq, Repr

/-- Embedding of `PgTransactionJob<'c, J, M>`: a transaction-held lease
handle (the shared transaction is threaded explicitly). -/
structure PgTransactionJob (J M : Type) where
  job : JobRow J M
deriving DecidableEq, Repr

/-- The live transaction: its pending (uncommitted) view of the table, plus
the injected outcome of a future COMMIT. -/
structure Txn (J M : Type) where
  pending : DB J M
  commitErr : Option SqlxError
deriving DecidableEq, Repr

/-- Embedding of `SharedTxn<'c>`. -/
structure SharedTxn (J M : Type) where
  counter : Nat
  raw_txn : Option (Txn J M)
deriving DecidableEq, Repr

/-- Embedding of `SharedTxn::drop_txn`: invalidate the transaction. -/
def SharedTxn.drop_txn (s : SharedTxn J M) : SharedTxn J M :=
  { s with raw_txn := none }

/-- Embedding of `SharedTxn::commit_if_last_owner`. `none` models the two
fatal assertions (counter already 0; transaction missing in the last-owner
branch). Otherwise the counter is decremented and, when it reaches zero, the
transaction is taken and committed: on success the pending view becomes the
table state, a driver error is reported with the transaction consumed either
way. -/
def SharedTxn.commit_if_last_owner (s : SharedTxn J M) (db : DB J M) :
    Option (SharedTxn J M × Except SqlxError (DB J M)) :=
  if s.counter = 0 then
    none
  else
    let c := s.counter - 1
    if c = 0 then
      match s.raw_txn with
      | none => none
      | some t =>
        match t.commitErr with
        | none => some ({ counter := 0, raw_txn := none }, .ok t.pending)
        | some e => some ({ counter := 0, raw_txn := none }, .error e)
    else
      some ({ s with counter := c }, .ok db)

/-! PgQueue operations. -/

/-- Embedding of `PgQueue::enqueue`: INSERT one row with `attempt = 0`,
`created_at = scheduled_at = NOW()`, `status = 'available'`, the supplied
fields and the queue's configured name; an INSERT failure maps to
`QueryError` with command `INSERT`. -/
def PgQueue.enqueue (q : PgQueue) (job : NewJob J M) (insertErr : Option SqlxError)
    (now newId : Nat) (db : DB J M) : Except PgQueueError Unit × DB J M :=
  match insertErr with
  | some e => (.error (.QueryError "INSERT" e), db)
  | none =>
    (.ok (), db ++ [{
      id := newId, attempt := 0, attempted_at := 0, attempted_by := [],
      created_at := now, last_attempt_finished_at := none,
      max_attempts := job.max_attempts, metadata := job.metadata,
      parameters := job.parameters, queue := q.name, scheduled_at := now,
      status := .Available, target := job.target, errors := [] }])

/-- Embedding of `PgQueue::dequeue` (flag mode): an acquisition failure is
`ConnectionError`; a `RowNotFound` query result is `Ok(None)`; any other
query error is `QueryError` with command `UPDATE`; otherwise the CTE runs
and its rows are wrapped in `PgJob` handles. -/
def PgQueue.dequeue (q : PgQueue) (attempted_by : String) (limit : Nat)
    (env : DbEnv) (now : Nat) (db : DB J M) :
    Except PgQueueError (Option (List (PgJob J M))) × DB J M :=
  match env.acquireErr with
  | some e => (.error (.ConnectionError e), db)
  | none =>
    match env.queryErr with
    | some .RowNotFound => (.ok none, db)
    | some e => (.error (.QueryError "UPDATE" e), db)
    | none =>
      let res := dequeueQuery db q.name attempted_by limit now
      (.ok (some (res.1.map (fun j => { job := j }))), res.2)

/-- Embedding of `PgQueue::dequeue_tx` (transaction-held mode): a
`pool.begin()` failure is `ConnectionError`; a `RowNotFound` query result is
`Ok(None)` (the transaction rolls back on drop); any other query error is
`QueryError` with command `UPDATE`; otherwise the CTE's effect stays pending
inside the new shared transaction (counter = batch size) and the external
table state is unchanged until commit. -/
def PgQueue.dequeue_tx (q : PgQueue) (attempted_by : String) (limit : Nat)
    (env : DbEnv) (commitErr : Option SqlxError) (now : Nat) (db : DB J M) :
    Except PgQueueError (Option (SharedTxn J M × List (PgTransactionJob J M))) × DB J M :=
  match env.acquireErr with
  | some e => (.error (.ConnectionError e), db)
  | none =>
    match env.queryErr with
    | some .RowNotFound => (.ok none, db)
    | some e => (.error (.QueryError "UPDATE" e), db)
    | none =>
      let res := dequeueQuery db q.name attempted_by limit now
      (.ok (some ({ counter := res.1.length,
                    raw_txn := some { pending := res.2, commitErr := commitErr } },
                  res.1.map (fun j => { job := j }))), db)

/-! Flag-mode finalizers (`impl PgQueueJob for PgJob`). -/

/-- Embedding of `PgJob::retry`: the `is_gte_max_attempts` precondition is
checked before `acquire_conn`; only then is a connection acquired and the
retry UPDATE run. -/
def PgJob.retry (pj : PgJob J M) (connErr queryErr : Option SqlxError)
    (e : String) (retry_interval : Nat) (q : String) (now : Nat) (db : DB J M) :
    Except (PgJobError (PgJob J M)) RetriedJob × DB J M :=
  if pj.job.is_gte_max_attempts then
    (.error (.RetryInvalidError pj "Maximum attempts reached"), db)
  else
    match connErr with
    | some err => (.error (.ConnectionError err), db)
    | none =>
      match queryErr with
      | some err => (.error (.QueryError "UPDATE" err), db)
      | none =>
        let rj := (pj.job.retryable).set_queue q
        (.ok { id := pj.job.id, queue := pj.job.queue, retry_queue := rj.retry_queue },
         retrySqlUpdate rj e retry_interval now db)

/-! Transaction-mode finalizers (`impl PgQueueJob for PgTransactionJob`).
Each takes and returns the shared transaction and the external table state;
the outer `Option` is `none` when `commit_if_last_owner` hits a fatal
assertion. -/

/-- Embedding of `PgTransactionJob::complete`: short-circuit to
`TransactionAlreadyClosedError` when the shared transaction was dropped; a
query error drops the transaction and maps to `QueryError`; otherwise the
UPDATE lands in the pending view and `commit_if_last_owner` runs, a COMMIT
failure mapping to `TransactionError`. -/
def PgTransactionJob.complete (pj : PgTransactionJob J M)
    (queryErr : Option SqlxError) (now : Nat) (s : SharedTxn J M) (db : DB J M) :
    Option (Except (PgJobError (PgTransactionJob J M)) CompletedJob
            × SharedTxn J M × DB J M) :=
  match s.raw_txn with
  | none => some (.error .TransactionAlreadyClosedError, s, db)
  | some t =>
    match queryErr with
    | some err => some (.error (.QueryError "UPDATE" err), s.drop_txn, db)
    | none =>
      let s2 : SharedTxn J M :=
        { s with raw_txn := some { t with
            pending := completeUpdate pj.job.queue pj.job.id now t.pending } }
      match s2.commit_if_last_owner db with
      | none => none
      | some (s3, .ok db2) =>
        some (.ok { id := pj.job.id, queue := pj.job.queue }, s3, db2)
      | some (s3, .error err) =>
        some (.error (.TransactionError "COMMIT" err), s3, db)

/-- Embedding of `PgTransactionJob::fail`: same structure as `complete` with
the fail UPDATE. -/
def PgTransactionJob.fail (pj : PgTransactionJob J M) (e : String)
    (queryErr : Option SqlxError) (now : Nat) (s : SharedTxn J M) (db : DB J M) :
    Option (Except (PgJobError (PgTransactionJob J M)) FailedJob
            × SharedTxn J M × DB J M) :=
  match s.raw_txn with
  | none => some (.error .TransactionAlreadyClosedError, s, db)
  | some t =>
    match queryErr with
    | some err => some (.error (.QueryError "UPDATE" err), s.drop_txn, db)
    | none =>
      let s2 : SharedTxn J M :=
        { s with raw_txn := some { t with
            pending := failUpdate pj.job.queue pj.job.id e now t.pending } }
      match s2.commit_if_last_owner db with
      | none => none
      | some (s3, .ok db2) =>
        some (.ok { id := pj.job.id, error := e, queue := pj.job.queue }, s3, db2)
      | some (s3, .error err) =>
        some (.error (.TransactionError "COMMIT" err), s3, db)

/-- Embedding of `PgTransactionJob::retry`: the `is_gte_max_attempts`
precondition is checked before the shared transaction is even locked; then
as `complete`, with the retry UPDATE. -/
def PgTransactionJob.retry (pj : PgTransactionJob J M) (e : String)
    (retry_interval : Nat) (q : String) (queryErr : Option SqlxError)
    (now : Nat) (s : SharedTxn J M) (db : DB J M) :
    Option (Except (PgJobError (PgTransactionJob J M)) RetriedJob
            × SharedTxn J M × DB J M) :=
  if pj.job.is_gte_max_attempts then
    some (.error (.RetryInvalidError pj "Maximum attempts reached"), s, db)
  else
    match s.raw_txn with
    | none => some (.error .TransactionAlreadyClosedError, s, db)
    | some t =>
      match queryErr with
      | some err => some (.error (.QueryError "UPDATE" err), s.drop_txn, db)
      | none =>
        let rj := (pj.job.retryable).set_queue q
        let s2 : SharedTxn J M :=
          { s with raw_txn := some { t with
              pending := retrySqlUpdate rj e retry_interval now t.pending } }
        match s2.commit_if_last_owner db with
        | none => none
        | some (s3, .ok db2) =>
          some (.ok { id := pj.job.id, queue := pj.job.queue,
                      retry_queue := rj.retry_queue }, s3, db2)
        | some (s3, .error err) =>
          some (.error (.TransactionError "COMMIT" err), s3, db)

/-! Concrete fixtures used to instantiate theorems with hypotheses. -/

/-- A policy with a configured maximum below a caller-preferred interval. -/
def cappedPolicy : RetryPolicy :=
  { backoff_coefficient := 1, initial_interval := 1, maximum_interval := some 3,
    queue := none }

/-- A policy with no configured maximum. -/
def uncappedPolicy : RetryPolicy :=
  { backoff_coefficient := 2, initial_interval := 1, maximum_interval := none,
    queue := none }

/-- A policy whose coefficient makes `u32::pow` wrap at attempt 32. -/
def wrapPolicy : RetryPolicy :=
  { backoff_coefficient := 2, initial_interval := 1, maximum_interval := none,
    queue := none }

/-- A leased row that has exhausted its attempts (`attempt = max_attempts = 1`). -/
def exhaustedRow : JobRow Nat Nat :=
  { id := 1, attempt := 1, attempted_at := 0, attempted_by := ["w"],
    created_at := 0, last_attempt_finished_at := none, max_attempts := 1,
    metadata := 0, parameters := 0, queue := "q", scheduled_at := 0,
    status := .Running, target := "t", errors := [] }

/-- A leased row that may still be retried (`attempt = 1 < max_attempts = 3`). -/
def retryableRow : JobRow Nat Nat :=
  { id := 2, attempt := 1, attempted_at := 0, attempted_by := ["w"],
    created_at := 0, last_attempt_finished_at := none, max_attempts := 3,
    metadata := 0, parameters := 0, queue := "q", scheduled_at := 0,
    status := .Running, target := "t", errors := [] }

/-- A fresh job used for the enqueue/dequeue round trip. -/
def sampleNewJob : NewJob Nat Nat :=
  { max_attempts := 3, metadata := 7, parameters := 9, target := "https://t" }

/-- A live shared transaction fixture with two co-owners. -/
def sampleTxn : SharedTxn Nat Nat :=
  { counter := 2, raw_txn := some { pending := [], commitErr := none } }

/-- A shared transaction fixture that has been invalidated. -/
def droppedTxn : SharedTxn Nat Nat :=
  { counter := 2, raw_txn := none }

/-! Theorems. -/

/-- Claim C1 counterexample: at `backoff_coefficient = 2` and `attempt = 32`,
`u32::pow` wraps to `0`, so the code returns `0` while the spec's table
applied to the mathematical `initial_interval * coefficient ^ attempt` gives
`2 ^ 32` — the claimed equality fails for this attempt. -/
theorem pow_wrap_breaks_spec_table_cex :
    wrapPolicy.time_until_next_retry 32 none = 0 ∧
    specRetryTable (wrapPolicy.initial_interval * wrapPolicy.backoff_coefficient ^ 32)
      none wrapPolicy.maximum_interval = 4294967296 ∧
    wrapPolicy.time_until_next_retry 32 none ≠
      specRetryTable (wrapPolicy.initial_interval * wrapPolicy.backoff_coefficient ^ 32)
        none wrapPolicy.maximum_interval := by
  refine ⟨rfl, rfl, by decide⟩

/-- Claim C1 (amended): for every `RetryPolicy`, attempt and preferred
interval such that `backoff_coefficient ^ attempt` does not overflow `u32`,
`time_until_next_retry` equals the spec's four-case combination table applied
to `interval = initial_interval * backoff_coefficient ^ attempt`, the
preferred interval and the configured maximum; past the overflow bound the
code applies the table to the wrapped power instead. -/
theorem time_until_next_retry_matches_spec_table (p : RetryPolicy)
    (attempt : Nat) (preferred : Option Nat)
    (hov : p.backoff_coefficient ^ attempt < 2 ^ 32) :
    p.time_until_next_retry attempt preferred =
      specRetryTable (p.initial_interval * p.backoff_coefficient ^ attempt)
        preferred p.maximum_interval := by
  have hm : p.backoff_coefficient ^ attempt % 4294967296 =
      p.backoff_coefficient ^ attempt := Nat.mod_eq_of_lt (by omega)
  cases preferred <;> cases h : p.maximum_interval <;>
    simp [RetryPolicy.time_until_next_retry, specRetryTable, h, hm]

/-- Claim C1 witness: the table equality at a concrete non-overflowing
policy and attempt. -/
theorem time_until_next_retry_matches_spec_table_witness :
    uncappedPolicy.time_until_next_retry 3 (some 2) =
      specRetryTable (uncappedPolicy.initial_interval * uncappedPolicy.backoff_coefficient ^ 3)
        (some 2) uncappedPolicy.maximum_interval :=
  time_until_next_retry_matches_spec_table uncappedPolicy 3 (some 2) (by decide)

/-- Claim C7 counterexample: with `maximum_interval = 3` and a preferred
interval of `5`, the result is `3 < 5`, so the claim that the result is
always at least the supplied preferred interval is false. -/
theorem preferred_can_be_undercut_cex :
    cappedPolicy.maximum_interval = some 3 ∧
    cappedPolicy.time_until_next_retry 0 (some 5) = 3 ∧
    ¬ 5 ≤ cappedPolicy.time_until_next_retry 0 (some 5) := by
  refine ⟨rfl, rfl, by decide⟩

/-- Claim C7 (amended): the result is at least the preferred interval `p`
whenever no maximum is configured, or whenever `p` does not exceed the
configured maximum; and whenever a maximum `m` is configured the result is
at most `m`. -/
theorem preferred_raises_maximum_caps (pol : RetryPolicy) (a : Nat) :
    (∀ p, pol.maximum_interval = none →
      p ≤ pol.time_until_next_retry a (some p)) ∧
    (∀ p m, pol.maximum_interval = some m → p ≤ m →
      p ≤ pol.time_until_next_retry a (some p)) ∧
    (∀ m pref, pol.maximum_interval = some m →
      pol.time_until_next_retry a pref ≤ m) := by
  refine ⟨?_, ?_, ?_⟩
  · intro p h
    simp [RetryPolicy.time_until_next_retry, h]
  · intro p m h hpm
    simp [RetryPolicy.time_until_next_retry, h]
    omega
  · intro m pref h
    cases pref <;> simp [RetryPolicy.time_until_next_retry, h]

/-- Claim C7 witness: concrete instances of the amended bounds. -/
theorem preferred_raises_maximum_caps_witness :
    2 ≤ uncappedPolicy.time_until_next_retry 0 (some 2) ∧
    2 ≤ cappedPolicy.time_until_next_retry 0 (some 2) ∧
    cappedPolicy.time_until_next_retry 4 (some 5) ≤ 3 :=
  ⟨(preferred_raises_maximum_caps uncappedPolicy 0).1 2 rfl,
   (preferred_raises_maximum_caps cappedPolicy 0).2.1 2 3 rfl (by decide),
   (preferred_raises_maximum_caps cappedPolicy 4).2.2 3 (some 5) rfl⟩

/-- Claim C8 counterexample: with coefficient 2 (so `1 ≤ coefficient`) and
attempts `31 ≤ 32`, the wrapped power drops from `2 ^ 31` to `0`, so the
result strictly decreases — monotonicity fails at the `u32` wrap point. -/
theorem monotone_fails_at_wrap_cex :
    (31 : Nat) ≤ 32 ∧ 1 ≤ wrapPolicy.backoff_coefficient ∧
    ¬ wrapPolicy.time_until_next_retry 31 none ≤
        wrapPolicy.time_until_next_retry 32 none := by
  refine ⟨by decide, by decide, by decide⟩

/-- Claim C8 (amended): with a positive backoff coefficient,
`time_until_next_retry` is monotonically non-decreasing in the attempt
number, for any fixed preferred interval, as long as the larger attempt's
power `backoff_coefficient ^ b` stays below the `u32` overflow bound. -/
theorem time_until_next_retry_monotone (pol : RetryPolicy) (pref : Option Nat)
    (h : 1 ≤ pol.backoff_coefficient) (a b : Nat) (hab : a ≤ b)
    (hov : pol.backoff_coefficient ^ b < 2 ^ 32) :
    pol.time_until_next_retry a pref ≤ pol.time_until_next_retry b pref := by
  have hpow : pol.backoff_coefficient ^ a ≤ pol.backoff_coefficient ^ b :=
    Nat.pow_le_pow_right h hab
  have hma : pol.backoff_coefficient ^ a % 2 ^ 32 =
      pol.backoff_coefficient ^ a := Nat.mod_eq_of_lt (lt_of_le_of_lt hpow hov)
  have hmb : pol.backoff_coefficient ^ b % 2 ^ 32 =
      pol.backoff_coefficient ^ b := Nat.mod_eq_of_lt hov
  have hcand : pol.initial_interval * (pol.backoff_coefficient ^ a % 2 ^ 32) ≤
      pol.initial_interval * (pol.backoff_coefficient ^ b % 2 ^ 32) := by
    rw [hma, hmb]
    exact Nat.mul_le_mul_left _ hpow
  cases pref <;> cases hm : pol.maximum_interval <;>
    simp only [RetryPolicy.time_until_next_retry, hm] <;> omega

/-- Claim C8 witness: monotonicity at a concrete policy and non-overflowing
attempts. -/
theorem time_until_next_retry_monotone_witness :
    uncappedPolicy.time_until_next_retry 1 (some 2) ≤
      uncappedPolicy.time_until_next_retry 3 (some 2) :=
  time_until_next_retry_monotone uncappedPolicy (some 2) (by decide) 1 3
    (by decide) (by decide)

/-- Claim C9: with `backoff_coefficient = 0` and `attempt = 0` and neither a
preferred nor a maximum interval, the result is exactly `initial_interval`,
by the convention `0 ^ 0 = 1`. -/
theorem zero_coefficient_zero_attempt (init : Nat) :
    RetryPolicy.time_until_next_retry
      { backoff_coefficient := 0, initial_interval := init,
        maximum_interval := none, queue := none } 0 none = init := by
  simp [RetryPolicy.time_until_next_retry]

/-- Claim C10: `JobStatus.from_str` succeeds on exactly the four strings
`available`, `completed`, `failed`, `running` (mapped to the matching
variants); every other string — including `cancelled` and `discarded`, which
are declared variants — yields `ParseJobStatusError` carrying that string. -/
theorem from_str_exactly_four (s : String) :
    (JobStatus.from_str "available" = .ok .Available ∧
     JobStatus.from_str "completed" = .ok .Completed ∧
     JobStatus.from_str "failed" = .ok .Failed ∧
     JobStatus.from_str "running" = .ok .Running) ∧
    (JobStatus.from_str "cancelled" = .error (.ParseJobStatusError "cancelled") ∧
     JobStatus.from_str "discarded" = .error (.ParseJobStatusError "discarded")) ∧
    (s ≠ "available" → s ≠ "completed" → s ≠ "failed" → s ≠ "running" →
      JobStatus.from_str s = .error (.ParseJobStatusError s)) := by
  refine ⟨⟨rfl, rfl, rfl, rfl⟩, ⟨rfl, rfl⟩, ?_⟩
  intro h1 h2 h3 h4
  simp [JobStatus.from_str, h1, h2, h3, h4]

/-- Claim C10 witness: the characterization applied at the string
`cancelled`. -/
theorem from_str_exactly_four_witness :
    JobStatus.from_str "cancelled" = .error (.ParseJobStatusError "cancelled") :=
  (from_str_exactly_four "cancelled").2.2 (by decide) (by decide) (by decide)
    (by decide)

/-- Claim C3: for both lease variants, `retry` on a job with
`attempt >= max_attempts` returns `RetryInvalidError` carrying the lease
handle intact, for every possible connection/query/transaction outcome, with
the table state (and the shared transaction) unchanged — i.e. the
precondition is enforced before any DB resource is acquired. -/
theorem retry_invalid_before_db {J M : Type} (pjF : PgJob J M)
    (pjT : PgTransactionJob J M) (connErr queryErr qErrTx : Option SqlxError)
    (e : String) (interval : Nat) (q : String) (now : Nat)
    (db dbTx : DB J M) (s : SharedTxn J M)
    (hF : pjF.job.max_attempts ≤ pjF.job.attempt)
    (hT : pjT.job.max_attempts ≤ pjT.job.attempt) :
    pjF.retry connErr queryErr e interval q now db =
      (.error (.RetryInvalidError pjF "Maximum attempts reached"), db) ∧
    pjT.retry e interval q qErrTx now s dbTx =
      some (.error (.RetryInvalidError pjT "Maximum attempts reached"), s, dbTx) := by
  constructor
  · simp [PgJob.retry, JobRow.is_gte_max_attempts, hF]
  · simp [PgTransactionJob.retry, JobRow.is_gte_max_attempts, hT]

/-- Claim C3 witness: a concrete exhausted lease in each variant, with a
failing connection and a dropped shared transaction, still yields
`RetryInvalidError` with the state untouched. -/
theorem retry_invalid_before_db_witness :
    PgJob.retry { job := exhaustedRow } (some (.Other "down")) none "err" 5 "q" 0 [] =
      (.error (.RetryInvalidError { job := exhaustedRow } "Maximum attempts reached"), []) ∧
    PgTransactionJob.retry { job := exhaustedRow } "err" 5 "q" none 0 droppedTxn [] =
      some (.error (.RetryInvalidError { job := exhaustedRow } "Maximum attempts reached"),
            droppedTxn, []) :=
  retry_invalid_before_db { job := exhaustedRow } { job := exhaustedRow }
    (some (.Other "down")) none none "err" 5 "q" 0 [] [] droppedTxn
    (by decide) (by decide)

/-- Claim C4: when the counter is zero, `commit_if_last_owner` is a fatal
assertion; when the counter is at least one and a live transaction is held
(and its COMMIT succeeds), the counter is decremented by exactly one and the
transaction is committed (the pending view becomes the table state, the
transaction is consumed) precisely when the decremented counter is zero —
otherwise the transaction stays open and the table is untouched. -/
theorem commit_if_last_owner_spec {J M : Type} (s : SharedTxn J M)
    (db : DB J M) :
    (s.counter = 0 → s.commit_if_last_owner db = none) ∧
    (∀ t, s.raw_txn = some t → t.commitErr = none → 1 ≤ s.counter →
      s.commit_if_last_owner db =
        some (if s.counter - 1 = 0 then
                ({ counter := 0, raw_txn := none }, Except.ok t.pending)
              else
                ({ counter := s.counter - 1, raw_txn := some t }, Except.ok db))) := by
  constructor
  · intro h
    simp [SharedTxn.commit_if_last_owner, h]
  · intro t ht hc h1
    have hne : ¬ s.counter = 0 := by omega
    by_cases hz : s.counter - 1 = 0 <;>
      simp [SharedTxn.commit_if_last_owner, hne, hz, ht, hc]

/-- Claim C4 witness: with two co-owners, one finalization decrements the
counter to one and leaves the transaction open. -/
theorem commit_if_last_owner_spec_witness :
    sampleTxn.commit_if_last_owner [] =
      some ({ counter := 1, raw_txn := some { pending := [], commitErr := none } },
            Except.ok []) := by
  have h := (commit_if_last_owner_spec sampleTxn []).2
    { pending := [], commitErr := none } rfl rfl (by decide)
  simpa [sampleTxn] using h

/-- Claim C5: once the shared transaction has been invalidated
(`raw_txn = none`), every finalizer — `complete`, `fail`, and `retry` with
its precondition satisfied — returns `TransactionAlreadyClosedError`, leaving
the shared transaction and the table state unchanged, for every injected
query outcome. -/
theorem dropped_txn_short_circuits {J M : Type} (pj : PgTransactionJob J M)
    (e : String) (interval : Nat) (q : String)
    (qe1 qe2 qe3 : Option SqlxError) (now : Nat) (s : SharedTxn J M)
    (db : DB J M) (hdrop : s.raw_txn = none)
    (hlt : pj.job.attempt < pj.job.max_attempts) :
    pj.complete qe1 now s db =
      some (.error .TransactionAlreadyClosedError, s, db) ∧
    pj.fail e qe2 now s db =
      some (.error .TransactionAlreadyClosedError, s, db) ∧
    pj.retry e interval q qe3 now s db =
      some (.error .TransactionAlreadyClosedError, s, db) := by
  have hgte : ¬ pj.job.max_attempts ≤ pj.job.attempt := by omega
  refine ⟨?_, ?_, ?_⟩
  · simp [PgTransactionJob.complete, hdrop]
  · simp [PgTransactionJob.fail, hdrop]
  · simp [PgTransactionJob.retry, JobRow.is_gte_max_attempts, hgte, hdrop]

/-- Claim C5 witness: concrete finalizers on a dropped shared transaction. -/
theorem dropped_txn_short_circuits_witness :
    PgTransactionJob.complete { job := retryableRow } none 0 droppedTxn [] =
      some (.error .TransactionAlreadyClosedError, droppedTxn, []) ∧
    PgTransactionJob.fail { job := retryableRow } "err" none 0 droppedTxn [] =
      some (.error .TransactionAlreadyClosedError, droppedTxn, []) ∧
    PgTransactionJob.retry { job := retryableRow } "err" 5 "q" none 0 droppedTxn [] =
      some (.error .TransactionAlreadyClosedError, droppedTxn, []) :=
  dropped_txn_short_circuits { job := retryableRow } "err" 5 "q" none none none
    0 droppedTxn [] rfl (by decide)

/-- Claim C6: for `dequeue` and `dequeue_tx`, a connection-acquisition (or
transaction-begin) failure surfaces as `ConnectionError`; a `RowNotFound`
from the bulk dequeue query yields `Ok(none)` and never an error; every
other SQL error propagates as `QueryError` carrying the command name
`UPDATE` — with the table state unchanged in each case. -/
theorem dequeue_failure_semantics {J M : Type} (q : PgQueue) (w : String)
    (limit : Nat) (now : Nat) (db : DB J M) (e : SqlxError)
    (ce : Option SqlxError) (e2 : SqlxError) (hne : e2 ≠ .RowNotFound) :
    (∀ qe, q.dequeue w limit { acquireErr := some e, queryErr := qe } now db =
      (.error (.ConnectionError e), db)) ∧
    q.dequeue w limit { acquireErr := none, queryErr := some .RowNotFound } now db =
      (.ok none, db) ∧
    q.dequeue w limit { acquireErr := none, queryErr := some e2 } now db =
      (.error (.QueryError "UPDATE" e2), db) ∧
    (∀ qe, q.dequeue_tx w limit { acquireErr := some e, queryErr := qe } ce now db =
      (.error (.ConnectionError e), db)) ∧
    q.dequeue_tx w limit { acquireErr := none, queryErr := some .RowNotFound } ce now db =
      (.ok none, db) ∧
    q.dequeue_tx w limit { acquireErr := none, queryErr := some e2 } ce now db =
      (.error (.QueryError "UPDATE" e2), db) := by
  cases e2 with
  | RowNotFound => exact absurd rfl hne
  | Other m =>
    exact ⟨fun qe => rfl, rfl, rfl, fun qe => rfl, rfl, rfl⟩

/-- Claim C6 witness: the failure semantics at a concrete queue and error. -/
theorem dequeue_failure_semantics_witness :
    PgQueue.dequeue (J := Nat) (M := Nat) { name := "q" } "w" 1
      { acquireErr := none, queryErr := some (.Other "boom") } 0 [] =
      (.error (.QueryError "UPDATE" (.Other "boom")), []) :=
  (dequeue_failure_semantics { name := "q" } "w" 1 0 [] (.Other "down") none
    (.Other "boom") (by simp)).2.2.1

/-- Helper for the round-trip law: running the dequeue CTE with limit 1 on a
table whose only matching row is the freshly appended `r` (no other row
matches the availability predicate, no other row shares its id) returns
exactly the updated `r`. -/
theorem dequeueQuery_single {J M : Type} (db : DB J M) (name w : String)
    (now : Nat) (r : JobRow J M)
    (hempty : ∀ x ∈ db, availableFilter name now x = false)
    (hfresh : ∀ x ∈ db, x.id ≠ r.id)
    (hr : availableFilter name now r = true) :
    (dequeueQuery (db ++ [r]) name w 1 now).1 = [dequeueUpdateRow now w r] := by
  have h0 : db.filter (availableFilter name now) = [] :=
    List.filter_eq_nil_iff.mpr (fun a ha => by simp [hempty a ha])
  have h1 : (db ++ [r]).filter (availableFilter name now) = [r] := by
    simp [List.filter_append, h0, hr]
  simp only [dequeueQuery, h1, sortJobs, insertJob]
  simp [List.filter_append]
  exact hfresh

/-- Claim C2: enqueuing a fresh job into a queue with no other matching jobs
and then dequeuing yields exactly that job, with `parameters`, `metadata`,
`target` and `max_attempts` preserved, `attempt = 1`, `status = running`,
and the dequeuing worker recorded in `attempted_by`. -/
theorem enqueue_dequeue_round_trip {J M : Type} (q : PgQueue) (nj : NewJob J M)
    (db : DB J M) (t t2 newId : Nat) (w : String) (hsched : t ≤ t2)
    (hempty : ∀ r ∈ db, availableFilter q.name t2 r = false)
    (hfresh : ∀ r ∈ db, r.id ≠ newId) :
    ∃ pj : PgJob J M,
      (q.dequeue w 1 okEnv t2 (q.enqueue nj none t newId db).2).1 =
        .ok (some [pj]) ∧
      pj.job.parameters = nj.parameters ∧ pj.job.metadata = nj.metadata ∧
      pj.job.target = nj.target ∧ pj.job.max_attempts = nj.max_attempts ∧
      pj.job.attempt = 1 ∧ pj.job.status = .Running ∧
      w ∈ pj.job.attempted_by := by
  have hr : availableFilter q.name t2
      ({ id := newId, attempt := 0, attempted_at := 0, attempted_by := [],
         created_at := t, last_attempt_finished_at := none,
         max_attempts := nj.max_attempts, metadata := nj.metadata,
         parameters := nj.parameters, queue := q.name, scheduled_at := t,
         status := .Available, target := nj.target, errors := [] } : JobRow J M)
      = true := by
    simp [availableFilter, hsched]
  have hq := dequeueQuery_single db q.name w t2 _ hempty hfresh hr
  refine ⟨{ job := (dequeueUpdateRow t2 w
    { id := newId, attempt := 0, attempted_at := 0, attempted_by := [],
      created_at := t, last_attempt_finished_at := none,
      max_attempts := nj.max_attempts, metadata := nj.metadata,
      parameters := nj.parameters, queue := q.name, scheduled_at := t,
      status := .Available, target := nj.target, errors := [] }) },
    ?_, rfl, rfl, rfl, rfl, rfl, rfl, ?_⟩
  · simp [PgQueue.dequeue, okEnv, PgQueue.enqueue, hq]
  · simp [dequeueUpdateRow]

/-- Claim C2 witness: the round trip on an initially empty table. -/
theorem enqueue_dequeue_round_trip_witness :
    ∃ pj : PgJob Nat Nat,
      (PgQueue.dequeue { name := "q" } "w1" 1 okEnv 0
        (PgQueue.enqueue { name := "q" } sampleNewJob none 0 5 []).2).1 =
        .ok (some [pj]) ∧
      pj.job.parameters = sampleNewJob.parameters ∧
      pj.job.metadata = sampleNewJob.metadata ∧
      pj.job.target = sampleNewJob.target ∧
      pj.job.max_attempts = sampleNewJob.max_attempts ∧
      pj.job.attempt = 1 ∧ pj.job.status = .Running ∧
      "w1" ∈ pj.job.attempted_by :=
  enqueue_dequeue_round_trip { name := "q" } sampleNewJob [] 0 0 5 "w1"
    (by decide) (by simp) (by simp)

end RustyHook
